import Mathlib

/-!
Verification of the usage-analytics dashboard (heatmap layout engine and
records-page orchestrator) against its natural-language specification.

The definitions below are a shallow embedding of the repository's two source
files:
* `ActivityHeatmap.tsx` — the calendar-heatmap layout engine
  (`getIntensityLevel`, the `weeks`/`monthLabels` memo, `updateVisibleWeeks`,
  `visibleWeeks`, `visibleMonthLabels`);
* the usage-records page (`UsageRecordsPage`) — `maskApiKey`, the fetch
  routines `loadFilterOptions`, `loadAnalytics`, `loadRecords`,
  `loadRecordDetail`, the pagination handlers and the debounce/auto-refresh
  effects.

Conventions of the embedding:
* JavaScript dates parsed from `"YYYY-MM-DDT00:00:00Z"` strings are modelled
  by a calendar-date structure `HDate`; `getUTCDay`/`getUTCMonth` are computed
  from the civil calendar exactly as ECMAScript does for UTC instants
  (days since the Unix epoch; weekday `(epochDay + 4) mod 7`; 0-based month).
* The empty-string sentinel date of padding cells is modelled as `none`.
* JavaScript `Math.floor` of a division of integers is Lean's `Int` division
  (`Int.ediv`, which rounds toward negative infinity for a positive divisor).
* Asynchronous fetch routines are embedded as pure state transformers that
  additionally return the trace of externally visible events they perform
  (backend requests, loading-flag raises, notifications); each awaited
  backend call is resolved through a `BackendEnv` of responses.
-/

/-- A civil calendar date, as carried by the `"YYYY-MM-DD"` strings of the
feed (`month` is 1-based as in the ISO string). -/
structure HDate where
  year : Int
  month : Int
  day : Int
deriving DecidableEq, Repr

/-- Days since 1970-01-01 of a civil date, as ECMAScript computes the UTC
timestamp of `"YYYY-MM-DDT00:00:00Z"` (standard civil-from-days algorithm;
`Int` division rounds toward negative infinity for these positive divisors). -/
def toEpochDay (d : HDate) : Int :=
  let y : Int := if d.month ≤ 2 then d.year - 1 else d.year
  let era : Int := y / 400
  let yoe : Int := y - era * 400
  let mp : Int := (d.month + 9) % 12
  let doy : Int := (153 * mp + 2) / 5 + d.day - 1
  let doe : Int := yoe * 365 + yoe / 4 - yoe / 100 + doy
  era * 146097 + doe - 719468

/-- `Date.getUTCDay()`: weekday 0 = Sunday .. 6 = Saturday
(1970-01-01 was a Thursday, weekday 4). -/
def getUTCDay (d : HDate) : Nat := ((toEpochDay d + 4) % 7).toNat

/-- `Date.getUTCMonth()`: 0-based month. -/
def getUTCMonth (d : HDate) : Int := d.month - 1

/-- One entry of `data.days` as it appears inside the layout's cells:
`date = none` models the empty-string date of synthetic padding cells. -/
structure ActivityHeatmapDay where
  date : Option HDate
  requests : Int
  total_tokens : Int
deriving DecidableEq, Repr

/-- The sentinel padding cell `{ date: '', requests: -1, total_tokens: 0 }`. -/
def sentinelDay : ActivityHeatmapDay := ⟨none, -1, 0⟩

/-- A day of the backend feed; every fed day carries a real calendar date
(the empty-string date occurs only in synthetic padding produced by the
layout itself, never in the feed). -/
structure FeedDay where
  date : HDate
  requests : Int
  total_tokens : Int
deriving DecidableEq, Repr

/-- A feed day as the cell it contributes to the grid. -/
def FeedDay.toCell (d : FeedDay) : ActivityHeatmapDay :=
  ⟨some d.date, d.requests, d.total_tokens⟩

/-- A month label `{ month: MONTHS[month], colStart: weeks.length }`; the
`month` field stores the 0-based month index into the `MONTHS` array (the
twelve month-name strings are pairwise distinct, so the index is a faithful
stand-in for the rendered string). -/
structure MonthLabel where
  month : Int
  colStart : Nat
deriving DecidableEq, Repr

/-- The mutable locals of the `weeks`/`monthLabels` `useMemo` body. -/
structure LayoutState where
  weeks : List (List ActivityHeatmapDay)
  currentWeek : List ActivityHeatmapDay
  currentMonth : Int
  monthLabels : List MonthLabel
deriving Repr

/-- The body of `data.days.forEach((day) => ...)` in the layout memo. -/
def layoutStep (s : LayoutState) (day : FeedDay) : LayoutState :=
  let month := getUTCMonth day.date
  let dayOfWeek := getUTCDay day.date
  let s :=
    if month ≠ s.currentMonth then
      { s with currentMonth := month
               monthLabels := s.monthLabels ++ [⟨month, s.weeks.length⟩] }
    else s
  let cw := s.currentWeek ++ [day.toCell]
  if dayOfWeek = 6 then
    { s with weeks := s.weeks ++ [cw], currentWeek := [] }
  else
    { s with currentWeek := cw }

/-- The `weeks`/`monthLabels` memo of `ActivityHeatmap`: pad the first week
up to the first day's weekday with sentinels, bucket the days into weeks
closing each week on Saturday, record a month label at each month change,
and pad the trailing partial week with sentinels. -/
def layout (days : List FeedDay) : List (List ActivityHeatmapDay) × List MonthLabel :=
  match days with
  | [] => ([], [])
  | d0 :: _ =>
    let startDayOfWeek := getUTCDay d0.date
    let init : LayoutState := ⟨[], List.replicate startDayOfWeek sentinelDay, -1, []⟩
    let s := days.foldl layoutStep init
    let weeks :=
      if 0 < s.currentWeek.length then
        s.weeks ++ [s.currentWeek ++ List.replicate (7 - s.currentWeek.length) sentinelDay]
      else s.weeks
    (weeks, s.monthLabels)

/-- `getIntensityLevel` of `ActivityHeatmap.tsx`.  The source divides two
JavaScript numbers; at every input the claims touch the quotient is exactly
representable, so the rational field models the computation faithfully. -/
def getIntensityLevel (requests maxRequests : ℚ) : Nat :=
  if requests = 0 then 0
  else if maxRequests = 0 then 0
  else
    let ratio := requests / maxRequests
    if ratio ≤ 1/4 then 1
    else if ratio ≤ 1/2 then 2
    else if ratio ≤ 3/4 then 3
    else 4

/-- The `data-level` attribute of a rendered heatmap cell:
`day.requests >= 0 ? getIntensityLevel(day.requests, data.max_requests) : 0`. -/
def cellDataLevel (day : ActivityHeatmapDay) (maxRequests : ℚ) : Nat :=
  if 0 ≤ day.requests then getIntensityLevel (day.requests : ℚ) maxRequests else 0

/-- Whether a rendered cell carries the `empty` class:
`day.requests < 0 ? 'empty' : ''`. -/
def cellIsEmpty (day : ActivityHeatmapDay) : Bool := day.requests < 0

/-- `CELL_SIZE` of `ActivityHeatmap`. -/
def CELL_SIZE : Int := 11

/-- `CELL_GAP` of `ActivityHeatmap`. -/
def CELL_GAP : Int := 3

/-- `WEEKDAY_LABEL_WIDTH` of `ActivityHeatmap`. -/
def WEEKDAY_LABEL_WIDTH : Int := 20

/-- `updateVisibleWeeks` of `ActivityHeatmap`: the `visibleWeeksCount`
computed from the container's pixel width and the number of weeks. -/
def updateVisibleWeeks (width : Int) (weeksLen : Nat) : Nat :=
  if width ≤ 0 ∨ weeksLen = 0 then weeksLen
  else
    let availableWidth := width - WEEKDAY_LABEL_WIDTH
    let weeksCanFit := (availableWidth + CELL_GAP) / (CELL_SIZE + CELL_GAP)
    (min (max weeksCanFit 1) (weeksLen : Int)).toNat

/-- The `visibleWeeks` memo: the trailing `visibleWeeksCount` weeks. -/
def visibleWeeks (weeks : List (List ActivityHeatmapDay)) (visibleWeeksCount : Nat) :
    List (List ActivityHeatmapDay) :=
  if weeks.length ≤ visibleWeeksCount ∨ visibleWeeksCount = 0 then weeks
  else weeks.drop (weeks.length - visibleWeeksCount)

/-- The `visibleMonthLabels` memo: keep the labels whose column is inside the
visible window and re-base their column to the window's first column. -/
def visibleMonthLabels (monthLabels : List MonthLabel) (weeksLen : Nat)
    (visibleWeeksCount : Nat) : List MonthLabel :=
  if weeksLen ≤ visibleWeeksCount ∨ visibleWeeksCount = 0 then monthLabels
  else
    let startVisibleIndex := weeksLen - visibleWeeksCount
    (monthLabels.filter (fun l => startVisibleIndex ≤ l.colStart)).map
      (fun l => { l with colStart := l.colStart - startVisibleIndex })

/-- The weekday computed by `getUTCDay` is one of 0..6. -/
theorem getUTCDay_lt (d : HDate) : getUTCDay d < 7 := by
  unfold getUTCDay
  omega

/-- Calendar-contiguous days advance the weekday by one, modulo 7. -/
theorem getUTCDay_succ {a b : HDate} (h : toEpochDay b = toEpochDay a + 1) :
    getUTCDay b = (getUTCDay a + 1) % 7 := by
  unfold getUTCDay
  omega

/-- On a window that can hold every week (or an empty layout) the truncation
is the identity, which coincides with dropping zero leading weeks. -/
theorem visibleWeeks_drop (weeks : List (List ActivityHeatmapDay)) (count : Nat)
    (h : 1 ≤ count ∨ weeks.length = 0) (hle : count ≤ weeks.length) :
    visibleWeeks weeks count = weeks.drop (weeks.length - count) := by
  unfold visibleWeeks
  rcases h with h1 | h0
  · split
    · rename_i hcond
      rcases hcond with hle' | hzero
      · have : weeks.length - count = 0 := by omega
        rw [this, List.drop_zero]
      · omega
    · rfl
  · have : weeks = [] := List.length_eq_zero.mp h0
    subst this
    simp

/-- On a window that can hold every week (or an empty layout) the label
truncation keeps everything, which coincides with filtering against column 0
and re-basing by 0. -/
theorem visibleMonthLabels_filter (labels : List MonthLabel) (weeksLen count : Nat)
    (h : 1 ≤ count ∨ weeksLen = 0) (hle : count ≤ weeksLen) :
    visibleMonthLabels labels weeksLen count =
      (labels.filter (fun l => weeksLen - count ≤ l.colStart)).map
        (fun l => ⟨l.month, l.colStart - (weeksLen - count)⟩) := by
  unfold visibleMonthLabels
  split
  · rename_i hcond
    have hz : weeksLen - count = 0 := by omega
    rw [hz]
    have hf : labels.filter (fun l => decide (0 ≤ l.colStart)) = labels := by
      apply List.filter_eq_self.mpr
      intro a _
      simp
    simp only [hf]
    have : (fun (l : MonthLabel) => (⟨l.month, l.colStart - 0⟩ : MonthLabel)) = id := by
      funext l
      simp
    rw [this, List.map_id]
  · rfl

/-- Claim C3 (amended): for every POSITIVE container pixel width and every
layout, the number of visible weeks equals
`floor((width - 20 + 3) / (11 + 3))` clamped to `[1, totalWeeks]`; the
visible weeks are exactly the trailing that-many weeks; the visible month
labels are exactly those whose column index is at least the first visible
column, re-based by subtracting it (labels before the window are dropped,
never clamped); and a width yielding `weeksCanFit = 4` on a 10-week layout
(e.g. 73px) shows exactly the last 4 weeks. -/
theorem claim_C3_amended (width : Int) (hpos : 0 < width)
    (weeks : List (List ActivityHeatmapDay)) (labels : List MonthLabel) :
    ((updateVisibleWeeks width weeks.length : Int) =
      min (max ((width - WEEKDAY_LABEL_WIDTH + CELL_GAP) / (CELL_SIZE + CELL_GAP)) 1)
        (weeks.length : Int)) ∧
    visibleWeeks weeks (updateVisibleWeeks width weeks.length) =
      weeks.drop (weeks.length - updateVisibleWeeks width weeks.length) ∧
    visibleMonthLabels labels weeks.length (updateVisibleWeeks width weeks.length) =
      (labels.filter
          (fun l => weeks.length - updateVisibleWeeks width weeks.length ≤ l.colStart)).map
        (fun l => ⟨l.month, l.colStart - (weeks.length - updateVisibleWeeks width weeks.length)⟩) ∧
    updateVisibleWeeks 73 10 = 4 := by
  have hbound : (1 ≤ updateVisibleWeeks width weeks.length ∨ weeks.length = 0) ∧
      updateVisibleWeeks width weeks.length ≤ weeks.length ∧
      ((updateVisibleWeeks width weeks.length : Int) =
        min (max ((width - WEEKDAY_LABEL_WIDTH + CELL_GAP) / (CELL_SIZE + CELL_GAP)) 1)
          (weeks.length : Int)) := by
    unfold updateVisibleWeeks
    simp only [WEEKDAY_LABEL_WIDTH, CELL_GAP, CELL_SIZE]
    rcases Nat.eq_zero_or_pos weeks.length with h0 | h1
    · rw [if_pos (Or.inr h0)]
      rw [h0]
      refine ⟨Or.inr rfl, Nat.le_refl _, ?_⟩
      omega
    · have hcond : ¬ (width ≤ 0 ∨ weeks.length = 0) := by omega
      rw [if_neg hcond]
      omega
  refine ⟨hbound.2.2, ?_, ?_, by decide⟩
  · exact visibleWeeks_drop _ _ hbound.1 hbound.2.1
  · exact visibleMonthLabels_filter _ _ _ hbound.1 hbound.2.1

/-- Counterexample to claim C3 as stated: at container width 0 (a hidden or
zero-width container) with a 2-week layout, the source's guard returns the
full week count 2, while the claimed clamped formula yields 1. -/
theorem claim_C3_counterexample :
    ¬ (updateVisibleWeeks 0 2 =
        (min (max (((0 : Int) - WEEKDAY_LABEL_WIDTH + CELL_GAP) / (CELL_SIZE + CELL_GAP)) 1)
          (2 : Int)).toNat) := by
  decide

/-- Witness for the amended claim C3 at width 73 and a concrete 10-week
layout with labels at columns 0 and 6. -/
theorem claim_C3_amended_witness :
    ((updateVisibleWeeks 73 (List.replicate 10 ([] : List ActivityHeatmapDay)).length : Int) =
      min (max (((73 : Int) - WEEKDAY_LABEL_WIDTH + CELL_GAP) / (CELL_SIZE + CELL_GAP)) 1)
        ((List.replicate 10 ([] : List ActivityHeatmapDay)).length : Int)) ∧
    visibleWeeks (List.replicate 10 [])
        (updateVisibleWeeks 73 (List.replicate 10 ([] : List ActivityHeatmapDay)).length) =
      (List.replicate 10 []).drop
        ((List.replicate 10 ([] : List ActivityHeatmapDay)).length -
          updateVisibleWeeks 73 (List.replicate 10 ([] : List ActivityHeatmapDay)).length) ∧
    visibleMonthLabels [⟨0, 0⟩, ⟨5, 6⟩] (List.replicate 10 ([] : List ActivityHeatmapDay)).length
        (updateVisibleWeeks 73 (List.replicate 10 ([] : List ActivityHeatmapDay)).length) =
      (([⟨0, 0⟩, ⟨5, 6⟩] : List MonthLabel).filter
          (fun l => (List.replicate 10 ([] : List ActivityHeatmapDay)).length -
            updateVisibleWeeks 73 (List.replicate 10 ([] : List ActivityHeatmapDay)).length ≤
              l.colStart)).map
        (fun l => ⟨l.month, l.colStart -
          ((List.replicate 10 ([] : List ActivityHeatmapDay)).length -
            updateVisibleWeeks 73 (List.replicate 10 ([] : List ActivityHeatmapDay)).length)⟩) ∧
    updateVisibleWeeks 73 10 = 4 :=
  claim_C3_amended 73 (by decide) (List.replicate 10 []) [⟨0, 0⟩, ⟨5, 6⟩]

/-- Claim C4: intensity is 0 at `requests = 0` or `maxRequests = 0`, 4 at
`requests = maxRequests > 0`, and exactly 25%/50%/75% of the maximum map to
levels 1/2/3 (upper bounds inclusive); sentinel cells (`requests < 0`)
always render as non-levelled empty cells. -/
theorem claim_C4 (requests maxRequests : ℚ)
    (hr : 0 ≤ requests) (hm : 0 ≤ maxRequests) :
    ((requests = 0 ∨ maxRequests = 0) → getIntensityLevel requests maxRequests = 0) ∧
    (0 < maxRequests → requests = maxRequests →
      getIntensityLevel requests maxRequests = 4) ∧
    (0 < maxRequests → requests = maxRequests / 4 →
      getIntensityLevel requests maxRequests = 1) ∧
    (0 < maxRequests → requests = maxRequests / 2 →
      getIntensityLevel requests maxRequests = 2) ∧
    (0 < maxRequests → requests = 3 * maxRequests / 4 →
      getIntensityLevel requests maxRequests = 3) ∧
    (∀ day : ActivityHeatmapDay, day.requests < 0 →
      cellIsEmpty day = true ∧ cellDataLevel day maxRequests = 0) := by
  refine ⟨?_, ?_, ?_, ?_, ?_, ?_⟩
  · rintro (h0 | h0) <;> simp [getIntensityLevel, h0]
  · intro hmpos heq
    have hne : maxRequests ≠ 0 := ne_of_gt hmpos
    have hratio : requests / maxRequests = 1 := by rw [heq, div_self hne]
    have hrne : requests ≠ 0 := by rw [heq]; exact hne
    simp only [getIntensityLevel, if_neg hrne, if_neg hne, hratio]
    norm_num
  · intro hmpos heq
    have hne : maxRequests ≠ 0 := ne_of_gt hmpos
    have hratio : requests / maxRequests = 1 / 4 := by
      rw [heq]
      field_simp
      ring
    have hrne : requests ≠ 0 := by
      rw [heq]
      positivity
    simp only [getIntensityLevel, if_neg hrne, if_neg hne, hratio]
    norm_num
  · intro hmpos heq
    have hne : maxRequests ≠ 0 := ne_of_gt hmpos
    have hratio : requests / maxRequests = 1 / 2 := by
      rw [heq]
      field_simp
      ring
    have hrne : requests ≠ 0 := by
      rw [heq]
      positivity
    simp only [getIntensityLevel, if_neg hrne, if_neg hne, hratio]
    norm_num
  · intro hmpos heq
    have hne : maxRequests ≠ 0 := ne_of_gt hmpos
    have hratio : requests / maxRequests = 3 / 4 := by
      rw [heq]
      field_simp
      ring
    have hrne : requests ≠ 0 := by
      rw [heq]
      positivity
    simp only [getIntensityLevel, if_neg hrne, if_neg hne, hratio]
    norm_num
  · intro day hneg
    refine ⟨by simp [cellIsEmpty, hneg], ?_⟩
    have : ¬ (0 ≤ day.requests) := by omega
    simp [cellDataLevel, this]

/-- Witness for claim C4 at `requests = 3`, `maxRequests = 4` (75% of the
maximum, level 3), checking every conjunct at this concrete input. -/
theorem claim_C4_witness :
    (((3 : ℚ) = 0 ∨ (4 : ℚ) = 0) → getIntensityLevel 3 4 = 0) ∧
    ((0 : ℚ) < 4 → (3 : ℚ) = 4 → getIntensityLevel 3 4 = 4) ∧
    ((0 : ℚ) < 4 → (3 : ℚ) = 4 / 4 → getIntensityLevel 3 4 = 1) ∧
    ((0 : ℚ) < 4 → (3 : ℚ) = 4 / 2 → getIntensityLevel 3 4 = 2) ∧
    ((0 : ℚ) < 4 → (3 : ℚ) = 3 * 4 / 4 → getIntensityLevel 3 4 = 3) ∧
    (∀ day : ActivityHeatmapDay, day.requests < 0 →
      cellIsEmpty day = true ∧ cellDataLevel day 4 = 0) :=
  claim_C4 3 4 (by norm_num) (by norm_num)

/-- The `weeks` field after one `forEach` iteration. -/
theorem layoutStep_weeks (s : LayoutState) (d : FeedDay) :
    (layoutStep s d).weeks =
      if getUTCDay d.date = 6 then s.weeks ++ [s.currentWeek ++ [d.toCell]]
      else s.weeks := by
  by_cases hm : getUTCMonth d.date ≠ s.currentMonth <;>
    by_cases hw : getUTCDay d.date = 6 <;>
      simp [layoutStep, hm, hw]

/-- The `currentWeek` field after one `forEach` iteration. -/
theorem layoutStep_currentWeek (s : LayoutState) (d : FeedDay) :
    (layoutStep s d).currentWeek =
      if getUTCDay d.date = 6 then [] else s.currentWeek ++ [d.toCell] := by
  by_cases hm : getUTCMonth d.date ≠ s.currentMonth <;>
    by_cases hw : getUTCDay d.date = 6 <;>
      simp [layoutStep, hm, hw]

/-- The `monthLabels` field after one `forEach` iteration. -/
theorem layoutStep_monthLabels (s : LayoutState) (d : FeedDay) :
    (layoutStep s d).monthLabels =
      if getUTCMonth d.date ≠ s.currentMonth then
        s.monthLabels ++ [⟨getUTCMonth d.date, s.weeks.length⟩]
      else s.monthLabels := by
  by_cases hm : getUTCMonth d.date ≠ s.currentMonth <;>
    by_cases hw : getUTCDay d.date = 6 <;>
      simp [layoutStep, hm, hw]

/-- After one `forEach` iteration the running month is the processed day's
month (either it was just assigned, or it already was equal). -/
theorem layoutStep_currentMonth (s : LayoutState) (d : FeedDay) :
    (layoutStep s d).currentMonth = getUTCMonth d.date := by
  by_cases hm : getUTCMonth d.date ≠ s.currentMonth
  · by_cases hw : getUTCDay d.date = 6 <;> simp [layoutStep, hm, hw]
  · push_neg at hm
    by_cases hw : getUTCDay d.date = 6 <;> simp [layoutStep, hm, hw]

/-- One `forEach` iteration never removes weeks. -/
theorem layoutStep_weeks_len_le (s : LayoutState) (d : FeedDay) :
    s.weeks.length ≤ (layoutStep s d).weeks.length := by
  rw [layoutStep_weeks]
  split <;> simp

/-- The cells accumulated by the fold (closed weeks plus the open week) are
the initial accumulated cells followed by the processed days' cells. -/
theorem foldl_layoutStep_content (days : List FeedDay) : ∀ s : LayoutState,
    (days.foldl layoutStep s).weeks.flatten ++ (days.foldl layoutStep s).currentWeek =
      s.weeks.flatten ++ s.currentWeek ++ days.map FeedDay.toCell := by
  induction days with
  | nil => intro s; simp
  | cons d rest ih =>
    intro s
    rw [List.foldl_cons, ih (layoutStep s d)]
    have hstep : (layoutStep s d).weeks.flatten ++ (layoutStep s d).currentWeek =
        s.weeks.flatten ++ s.currentWeek ++ [d.toCell] := by
      rw [layoutStep_weeks, layoutStep_currentWeek]
      by_cases hw : getUTCDay d.date = 6 <;>
        simp [hw, List.flatten_append, List.append_assoc]
    rw [hstep]
    simp [List.append_assoc]

/-- Fold invariant for week shapes: starting from all-7-day closed weeks and
an open week filled exactly up to the incoming day's weekday, a
calendar-contiguous run of days keeps every closed week at exactly 7 cells
and leaves at most 6 cells in the open week. -/
theorem foldl_layoutStep_weeks_len (days : List FeedDay) : ∀ s : LayoutState,
    days.Chain' (fun a b => toEpochDay b.date = toEpochDay a.date + 1) →
    (∀ w ∈ s.weeks, w.length = 7) →
    (∀ d, days.head? = some d → s.currentWeek.length = getUTCDay d.date) →
    (∀ w ∈ (days.foldl layoutStep s).weeks, w.length = 7) ∧
      (days ≠ [] → (days.foldl layoutStep s).currentWeek.length ≤ 6) := by
  induction days with
  | nil =>
    intro s _ hw _
    exact ⟨hw, fun h => absurd rfl h⟩
  | cons d rest ih =>
    intro s hchain hw hcw
    have hcwd : s.currentWeek.length = getUTCDay d.date := hcw d rfl
    have hdlt : getUTCDay d.date < 7 := getUTCDay_lt d.date
    have hw' : ∀ w ∈ (layoutStep s d).weeks, w.length = 7 := by
      intro w hwmem
      rw [layoutStep_weeks] at hwmem
      by_cases h6 : getUTCDay d.date = 6
      · rw [if_pos h6] at hwmem
        rcases List.mem_append.mp hwmem with h | h
        · exact hw w h
        · have hweq : w = s.currentWeek ++ [d.toCell] := by simpa using h
          rw [hweq]
          simp only [List.length_append, List.length_cons, List.length_nil]
          omega
      · rw [if_neg h6] at hwmem
        exact hw w hwmem
    cases rest with
    | nil =>
      refine ⟨by simpa using hw', fun _ => ?_⟩
      rw [List.foldl_cons, List.foldl_nil, layoutStep_currentWeek]
      by_cases h6 : getUTCDay d.date = 6
      · rw [if_pos h6]; simp
      · rw [if_neg h6]
        simp only [List.length_append, List.length_cons, List.length_nil]
        omega
    | cons r rs =>
      have hchain' := (List.chain'_cons.mp hchain).2
      have hrel : toEpochDay r.date = toEpochDay d.date + 1 :=
        (List.chain'_cons.mp hchain).1
      have hcw' : ∀ d', (r :: rs).head? = some d' →
          (layoutStep s d).currentWeek.length = getUTCDay d'.date := by
        intro d' hd'
        have hrd : r = d' := by simpa using hd'
        subst hrd
        have hsucc : getUTCDay r.date = (getUTCDay d.date + 1) % 7 := getUTCDay_succ hrel
        rw [layoutStep_currentWeek]
        by_cases h6 : getUTCDay d.date = 6
        · rw [if_pos h6]
          simp [hsucc, h6]
        · rw [if_neg h6]
          simp only [List.length_append, List.length_cons, List.length_nil]
          omega
      rw [List.foldl_cons]
      have hres := ih (layoutStep s d) hchain' hw' hcw'
      exact ⟨hres.1, fun _ => hres.2 (by simp)⟩

/-- One representative per maximal run of equal adjacent values (under a
contiguous feed, exactly one value per calendar month present, in
chronological order). -/
def dedupAdj : List Int → List Int
  | [] => []
  | [x] => [x]
  | x :: y :: rest => if x = y then dedupAdj (y :: rest) else x :: dedupAdj (y :: rest)

/-- `dedupAdj` relative to a running current value `c`: a value equal to the
running value is skipped, a differing value is emitted and becomes current —
precisely the `currentMonth` bookkeeping of the layout loop. -/
def destutterFrom (c : Int) : List Int → List Int
  | [] => []
  | m :: rest => if m = c then destutterFrom c rest else m :: destutterFrom m rest

/-- Starting the run tracking at the head value is the same as `dedupAdj`. -/
theorem cons_destutterFrom (rest : List Int) : ∀ m : Int,
    m :: destutterFrom m rest = dedupAdj (m :: rest) := by
  induction rest with
  | nil => intro m; rfl
  | cons y t ih =>
    intro m
    by_cases h : y = m
    · subst h
      simp only [destutterFrom, dedupAdj, if_pos rfl]
      exact ih y
    · have h' : ¬ (m = y) := fun he => h he.symm
      simp only [destutterFrom, dedupAdj, if_neg h, if_neg h']
      rw [← ih y]

/-- The month labels accumulated by the fold, as month values: the initial
labels followed by the de-stuttered month sequence of the processed days,
relative to the running `currentMonth`. -/
theorem foldl_layoutStep_labels (days : List FeedDay) : ∀ s : LayoutState,
    (days.foldl layoutStep s).monthLabels.map MonthLabel.month =
      s.monthLabels.map MonthLabel.month ++
        destutterFrom s.currentMonth (days.map (fun d => getUTCMonth d.date)) := by
  induction days with
  | nil => intro s; simp [destutterFrom]
  | cons d rest ih =>
    intro s
    rw [List.foldl_cons, ih (layoutStep s d), layoutStep_monthLabels,
      layoutStep_currentMonth]
    by_cases h : getUTCMonth d.date = s.currentMonth
    · rw [if_neg (not_not_intro h)]
      simp only [List.map_cons, destutterFrom]
      rw [if_pos h, h]
    · rw [if_pos h]
      simp only [List.map_cons, destutterFrom, if_neg h, List.map_append]
      simp [List.append_assoc]

/-- Fold invariant for label columns: columns are non-decreasing and bounded
by the number of closed weeks. -/
theorem foldl_layoutStep_colStart (days : List FeedDay) : ∀ s : LayoutState,
    ((s.monthLabels.map MonthLabel.colStart).Pairwise (· ≤ ·)) →
    (∀ l ∈ s.monthLabels, l.colStart ≤ s.weeks.length) →
    (((days.foldl layoutStep s).monthLabels.map MonthLabel.colStart).Pairwise (· ≤ ·)) ∧
      ∀ l ∈ (days.foldl layoutStep s).monthLabels,
        l.colStart ≤ (days.foldl layoutStep s).weeks.length := by
  induction days with
  | nil => intro s h1 h2; exact ⟨h1, h2⟩
  | cons d rest ih =>
    intro s h1 h2
    rw [List.foldl_cons]
    have hlen := layoutStep_weeks_len_le s d
    apply ih
    · rw [layoutStep_monthLabels]
      by_cases h : getUTCMonth d.date ≠ s.currentMonth
      · rw [if_pos h, List.map_append, List.pairwise_append]
        refine ⟨h1, List.pairwise_singleton _ _, ?_⟩
        intro a ha b hb
        simp only [List.map_cons, List.map_nil, List.mem_singleton] at hb
        subst hb
        rcases List.mem_map.mp ha with ⟨l, hl, rfl⟩
        exact h2 l hl
      · rw [if_neg h]
        exact h1
    · intro l hl
      rw [layoutStep_monthLabels] at hl
      by_cases h : getUTCMonth d.date ≠ s.currentMonth
      · rw [if_pos h] at hl
        rcases List.mem_append.mp hl with hmem | hmem
        · exact le_trans (h2 l hmem) hlen
        · have hleq : l = ⟨getUTCMonth d.date, s.weeks.length⟩ := by simpa using hmem
          rw [hleq]
          exact hlen
      · rw [if_neg h] at hl
        exact le_trans (h2 l hl) hlen

/-- Sentinel padding never survives the non-sentinel filter. -/
theorem filter_sentinel_replicate (n : Nat) :
    (List.replicate n sentinelDay).filter
      (fun c => !(c.date.isNone && c.requests == -1)) = [] := by
  induction n with
  | zero => rfl
  | succ k ih =>
    rw [List.replicate_succ, List.filter_cons]
    simp only [sentinelDay]
    simpa using ih

/-- Cells coming from real feed days all survive the non-sentinel filter. -/
theorem filter_toCell (ds : List FeedDay) :
    (ds.map FeedDay.toCell).filter (fun c => !(c.date.isNone && c.requests == -1)) =
      ds.map FeedDay.toCell := by
  apply List.filter_eq_self.mpr
  intro c hc
  rcases List.mem_map.mp hc with ⟨d, _, rfl⟩
  simp [FeedDay.toCell]

/-- Claim C1: for every non-empty chronological, calendar-contiguous day
sequence, every week produced by the layout has exactly 7 entries, and the
concatenation of all weeks with the sentinel padding entries
(`date = ''`, `requests = -1`) removed reproduces the input days in order. -/
theorem claim_C1 (days : List FeedDay) (hne : days ≠ [])
    (hcontig : days.Chain' (fun a b => toEpochDay b.date = toEpochDay a.date + 1)) :
    (∀ w ∈ (layout days).1, w.length = 7) ∧
      (layout days).1.flatten.filter (fun c => !(c.date.isNone && c.requests == -1)) =
        days.map FeedDay.toCell := by
  obtain ⟨d0, rest, rfl⟩ : ∃ d0 rest, days = d0 :: rest := by
    cases days with
    | nil => exact absurd rfl hne
    | cons a l => exact ⟨a, l, rfl⟩
  simp only [layout]
  have hinv := foldl_layoutStep_weeks_len (d0 :: rest)
    ⟨[], List.replicate (getUTCDay d0.date) sentinelDay, -1, []⟩ hcontig
    (by simp) (by intro d hd; simp at hd; subst hd; simp)
  have hcontent := foldl_layoutStep_content (d0 :: rest)
    ⟨[], List.replicate (getUTCDay d0.date) sentinelDay, -1, []⟩
  set sF := (d0 :: rest).foldl layoutStep
    ⟨[], List.replicate (getUTCDay d0.date) sentinelDay, -1, []⟩ with hsF
  have hle : sF.currentWeek.length ≤ 6 := hinv.2 (by simp)
  have hflat : sF.weeks.flatten ++ sF.currentWeek =
      List.replicate (getUTCDay d0.date) sentinelDay ++ (d0 :: rest).map FeedDay.toCell := by
    simpa using hcontent
  constructor
  · intro w hw
    by_cases hpos : 0 < sF.currentWeek.length
    · rw [if_pos hpos] at hw
      rcases List.mem_append.mp hw with hmem | hmem
      · exact hinv.1 w hmem
      · have hweq : w = sF.currentWeek ++
            List.replicate (7 - sF.currentWeek.length) sentinelDay := by simpa using hmem
        rw [hweq]
        simp only [List.length_append, List.length_replicate]
        omega
    · rw [if_neg hpos] at hw
      exact hinv.1 w hw
  · by_cases hpos : 0 < sF.currentWeek.length
    · rw [if_pos hpos, List.flatten_append]
      simp only [List.flatten_cons, List.flatten_nil, List.append_nil]
      rw [← List.append_assoc, hflat, List.append_assoc, List.filter_append,
        List.filter_append, filter_sentinel_replicate, filter_sentinel_replicate,
        filter_toCell]
      simp
    · have hcw0 : sF.currentWeek = [] := by
        cases hcwe : sF.currentWeek with
        | nil => rfl
        | cons a l => rw [hcwe] at hpos; simp at hpos
      rw [if_neg hpos]
      have : sF.weeks.flatten =
          List.replicate (getUTCDay d0.date) sentinelDay ++
            (d0 :: rest).map FeedDay.toCell := by
        rw [← hflat, hcw0, List.append_nil]
      rw [this, List.filter_append, filter_sentinel_replicate, filter_toCell]
      simp

/-- Claim C2 (amended): for every non-empty chronological, calendar-contiguous
day sequence with valid calendar months, the month labels' week-column
indices are non-decreasing (an adjacent pair may share a column when a new
month starts inside the still-open first week of the previous label), and the
label months are exactly one per maximal run of equal adjacent months —
under contiguity, exactly one per distinct calendar month present in the
input, in chronological order. -/
theorem claim_C2_amended (days : List FeedDay) (hne : days ≠ [])
    (hcontig : days.Chain' (fun a b => toEpochDay b.date = toEpochDay a.date + 1))
    (hvalid : ∀ d ∈ days, 1 ≤ d.date.month ∧ d.date.month ≤ 12) :
    (((layout days).2.map MonthLabel.colStart).Pairwise (· ≤ ·)) ∧
      (layout days).2.map MonthLabel.month =
        dedupAdj (days.map (fun d => getUTCMonth d.date)) := by
  obtain ⟨d0, rest, rfl⟩ : ∃ d0 rest, days = d0 :: rest := by
    cases days with
    | nil => exact absurd rfl hne
    | cons a l => exact ⟨a, l, rfl⟩
  simp only [layout]
  constructor
  · exact (foldl_layoutStep_colStart (d0 :: rest)
      ⟨[], List.replicate (getUTCDay d0.date) sentinelDay, -1, []⟩
      (by simp) (by simp)).1
  · rw [foldl_layoutStep_labels (d0 :: rest)
      ⟨[], List.replicate (getUTCDay d0.date) sentinelDay, -1, []⟩]
    simp only [List.map_cons, List.map_nil, List.nil_append, destutterFrom]
    have hm0 : 1 ≤ d0.date.month := (hvalid d0 (by simp)).1
    have hne0 : ¬ (getUTCMonth d0.date = (-1 : Int)) := by
      unfold getUTCMonth
      omega
    rw [if_neg hne0]
    exact cons_destutterFrom _ _

/-- The two contiguous days 2024-01-31 (a Wednesday) and 2024-02-01: the
month changes while the first week is still open, so both month labels are
recorded at week column 0. -/
def janFebDays : List FeedDay :=
  [⟨⟨2024, 1, 31⟩, 5, 10⟩, ⟨⟨2024, 2, 1⟩, 3, 7⟩]

/-- Counterexample to claim C2 as stated: on the chronological, contiguous
input `janFebDays` the produced month labels sit at week columns `[0, 0]`,
which is not strictly increasing. -/
theorem claim_C2_counterexample :
    ¬ (((layout janFebDays).2.map MonthLabel.colStart).Pairwise (· < ·)) := by
  decide

/-- Witness for the amended claim C2 on the concrete input `janFebDays`. -/
theorem claim_C2_amended_witness :
    (janFebDays ≠ [] ∧
      janFebDays.Chain' (fun a b => toEpochDay b.date = toEpochDay a.date + 1) ∧
      (∀ d ∈ janFebDays, 1 ≤ d.date.month ∧ d.date.month ≤ 12)) ∧
    ((((layout janFebDays).2.map MonthLabel.colStart).Pairwise (· ≤ ·)) ∧
      (layout janFebDays).2.map MonthLabel.month =
        dedupAdj (janFebDays.map (fun d => getUTCMonth d.date))) :=
  ⟨⟨by decide,
    by rw [janFebDays, List.chain'_cons]; exact ⟨by decide, List.chain'_singleton _⟩,
    by decide⟩,
   claim_C2_amended janFebDays (by decide)
     (by rw [janFebDays, List.chain'_cons]; exact ⟨by decide, List.chain'_singleton _⟩)
     (by decide)⟩

/-- Witness for claim C1 on the concrete two-day input `janFebDays`: one
7-entry week whose non-sentinel cells are the two input days, in order. -/
theorem claim_C1_witness :
    (janFebDays ≠ [] ∧
      janFebDays.Chain' (fun a b => toEpochDay b.date = toEpochDay a.date + 1)) ∧
    ((∀ w ∈ (layout janFebDays).1, w.length = 7) ∧
      (layout janFebDays).1.flatten.filter
          (fun c => !(c.date.isNone && c.requests == -1)) =
        janFebDays.map FeedDay.toCell) :=
  ⟨⟨by decide,
    by rw [janFebDays, List.chain'_cons]; exact ⟨by decide, List.chain'_singleton _⟩⟩,
   claim_C1 janFebDays (by decide)
     (by rw [janFebDays, List.chain'_cons]; exact ⟨by decide, List.chain'_singleton _⟩)⟩

/-- The tri-state connection signal reported by the external auth store. -/
inductive ConnectionStatus
  | connected
  | connecting
  | disconnected
deriving DecidableEq, Repr

/-- `PeriodValue` of the records page. -/
inductive PeriodValue
  | today
  | yesterday
  | last7days
  | last30days
  | last90days
deriving DecidableEq, Repr

/-- `StatusValue` of the records page (`all` is the source's `'__all__'`). -/
inductive StatusValue
  | all
  | streaming
  | standard
  | failed
deriving DecidableEq, Repr

/-- A fetched usage record (the fields this page reads). -/
structure UsageRecord where
  id : Int
  timestamp : String
  ip : String
  api_key : Option String
  model : String
  provider : String
  is_streaming : Bool
  success : Bool
  status_code : Option Int
  input_tokens : Int
  output_tokens : Int
  duration_ms : Int
deriving DecidableEq, Repr

/-- The `{ start_time?, end_time? }` object produced by
`getDateRangeFromPeriod`; the ISO timestamps stay abstract strings. -/
structure DateRange where
  start_time : Option String
  end_time : Option String
deriving DecidableEq, Repr

/-- `UsageRecordsListQuery` as built by `loadRecords`. -/
structure UsageRecordsListQuery where
  page : Nat
  page_size : Nat
  sort_by : String
  sort_order : String
  start_time : Option String
  end_time : Option String
  model : Option String
  provider : Option String
deriving DecidableEq, Repr

/-- The list endpoint's response `{ records, total }`. -/
structure ListResult where
  records : List UsageRecord
  total : Nat
deriving DecidableEq, Repr

/-- The filter-options endpoint's response `{ models, providers }`. -/
structure FilterOptions where
  models : List String
  providers : List String
deriving DecidableEq, Repr

/-- A backend request issued by the page. -/
inductive FetchReq
  | list (query : UsageRecordsListQuery)
  | heatmap (days : Nat)
  | modelStats (range : DateRange)
  | summary (range : DateRange)
  | providerStats (range : DateRange)
  | timeline (range : DateRange)
  | options (range : DateRange)
  | getById (id : Int)
deriving DecidableEq, Repr

/-- The loading flags the page can raise (set to `true`). -/
inductive LoadingFlag
  | list
  | heatmap
  | modelStats
  | summary
  | providerStats
  | timeline
  | filterOptions
  | detail
deriving DecidableEq, Repr

/-- The externally visible events of one run of a fetch routine, in program
order: backend requests, loading flags raised, notifications shown. -/
inductive Ev
  | fetch (req : FetchReq)
  | flagUp (flag : LoadingFlag)
  | notify (message : String)
deriving DecidableEq, Repr

/-- The `useState` cells of `UsageRecordsPage`.  The five analytics payload
types come from the external API module and are opaque to this page, so the
state is polymorphic in them (heatmap `H`, model stats `M`, summary `S`,
provider stats `P`, timeline `T`). -/
structure OrchestratorState (H M S P T : Type) where
  records : List UsageRecord
  loading : Bool
  error : String
  total : Nat
  page : Nat
  pageSize : Nat
  selectedPeriod : PeriodValue
  modelFilter : String
  providerFilter : String
  statusFilter : StatusValue
  selectedRecord : Option UsageRecord
  detailLoading : Bool
  heatmapData : Option H
  heatmapLoading : Bool
  heatmapError : Bool
  modelStats : List M
  modelStatsLoading : Bool
  modelStatsError : Bool
  usageSummary : Option S
  summaryLoading : Bool
  summaryError : Bool
  providerStats : List P
  providerStatsLoading : Bool
  providerStatsError : Bool
  timelineData : Option T
  timelineLoading : Bool
  timelineError : Bool
  filterOptionsLoading : Bool
  availableModels : List String
  availableProviders : List String

/-- The initial values of the `useState` cells. -/
def initialState {H M S P T : Type} : OrchestratorState H M S P T where
  records := []
  loading := true
  error := ""
  total := 0
  page := 1
  pageSize := 20
  selectedPeriod := .today
  modelFilter := "__all__"
  providerFilter := "__all__"
  statusFilter := .all
  selectedRecord := none
  detailLoading := false
  heatmapData := none
  heatmapLoading := true
  heatmapError := false
  modelStats := []
  modelStatsLoading := true
  modelStatsError := false
  usageSummary := none
  summaryLoading := true
  summaryError := false
  providerStats := []
  providerStatsLoading := true
  providerStatsError := false
  timelineData := none
  timelineLoading := true
  timelineError := false
  filterOptionsLoading := true
  availableModels := []
  availableProviders := []

/-- The environment resolving the awaited calls of one run of a fetch
routine: the backend responses (`Except.error` models a rejected promise)
and the wall-clock date-range derivation (`getDateRangeFromPeriod`
evaluated at the current instant — the only impure input of the query
builders). -/
structure BackendEnv (H M S P T : Type) where
  deriveRange : PeriodValue → DateRange
  listResult : Except String ListResult
  heatmap : Except String H
  modelStats : Except String (List M)
  summary : Except String S
  providerStats : Except String (List P)
  timeline : Except String T
  options : Except String FilterOptions
  recordById : Int → Except String UsageRecord

/-- The predicate of the client-side status post-filter in `loadRecords`.
The source's `record.status_code && record.status_code >= 400` evaluates
JavaScript truthiness of the code first: an absent or zero status code is
falsy (the extra `code ≠ 0` conjunct mirrors that, though `400 ≤ code`
already excludes zero). -/
def recordMatchesStatus (statusFilter : StatusValue) (record : UsageRecord) : Bool :=
  match statusFilter with
  | .streaming => record.is_streaming && record.success
  | .standard => !record.is_streaming && record.success
  | .failed =>
      !record.success ||
        (match record.status_code with
         | some code => code ≠ 0 && 400 ≤ code
         | none => false)
  | .all => true

/-- The spec's wording of the classification, as a second definition to
compare against the source's filter: `streaming = is_streaming && success`;
`standard = !is_streaming && success`;
`failed = !success || (status_code present && status_code >= 400)`. -/
def specStatusClass (statusFilter : StatusValue) (record : UsageRecord) : Bool :=
  match statusFilter with
  | .streaming => record.is_streaming && record.success
  | .standard => !record.is_streaming && record.success
  | .failed =>
      !record.success ||
        (record.status_code.isSome && 400 ≤ record.status_code.getD 0)
  | .all => true

/-- `loadRecords(resetPage, isSilent)` of `UsageRecordsPage`: connection
guard, loading/error bookkeeping, query construction, the client-side
status post-filter, and `setTotal` from the backend total.  Returns the
final state and the event trace. -/
def loadRecords {H M S P T : Type} (env : BackendEnv H M S P T)
    (conn : ConnectionStatus) (resetPage isSilent : Bool)
    (st : OrchestratorState H M S P T) :
    OrchestratorState H M S P T × List Ev :=
  if conn ≠ .connected then
    ({ st with loading := false }, [])
  else
    let st1 := if !isSilent then { st with loading := true } else st
    let evLoading : List Ev := if !isSilent then [.flagUp .list] else []
    let st2 := { st1 with error := "" }
    let currentPage := if resetPage then 1 else st2.page
    let st3 := if resetPage then { st2 with page := 1 } else st2
    let dateRange := env.deriveRange st3.selectedPeriod
    let query : UsageRecordsListQuery :=
      { page := currentPage
        page_size := st3.pageSize
        sort_by := "timestamp"
        sort_order := "desc"
        start_time := dateRange.start_time
        end_time := dateRange.end_time
        model := if st3.modelFilter ≠ "__all__" then some st3.modelFilter else none
        provider := if st3.providerFilter ≠ "__all__" then some st3.providerFilter else none }
    let evs := evLoading ++ [.fetch (.list query)]
    match env.listResult with
    | .ok result =>
        let filteredRecords :=
          if st3.statusFilter ≠ .all then
            result.records.filter (recordMatchesStatus st3.statusFilter)
          else result.records
        let st4 := { st3 with records := filteredRecords, total := result.total }
        let st5 := if !isSilent then { st4 with loading := false } else st4
        (st5, evs)
    | .error message =>
        let st4 :=
          if !isSilent then
            { st3 with error := if message ≠ "" then message else "加载使用记录失败" }
          else st3
        let st5 := if !isSilent then { st4 with loading := false } else st4
        (st5, evs)

/-- `loadAnalytics` of `UsageRecordsPage`: connection guard, then five
sequential try/catch fetch blocks (heatmap with the fixed 500-day window,
then model stats, usage summary, provider stats and timeline over the
period range), each raising and clearing its own loading flag and leaving
the previously displayed data untouched on failure. -/
def loadAnalytics {H M S P T : Type} (env : BackendEnv H M S P T)
    (conn : ConnectionStatus) (st : OrchestratorState H M S P T) :
    OrchestratorState H M S P T × List Ev :=
  if conn ≠ .connected then (st, [])
  else
    let stH0 := { st with heatmapLoading := true, heatmapError := false }
    let stH1 :=
      match env.heatmap with
      | .ok data => { stH0 with heatmapData := some data }
      | .error _ => { stH0 with heatmapError := true }
    let stH := { stH1 with heatmapLoading := false }
    let dateRange := env.deriveRange stH.selectedPeriod
    let stM0 := { stH with modelStatsLoading := true, modelStatsError := false }
    let stM1 :=
      match env.modelStats with
      | .ok result => { stM0 with modelStats := result }
      | .error _ => { stM0 with modelStatsError := true }
    let stM := { stM1 with modelStatsLoading := false }
    let stS0 := { stM with summaryLoading := true, summaryError := false }
    let stS1 :=
      match env.summary with
      | .ok data => { stS0 with usageSummary := some data }
      | .error _ => { stS0 with summaryError := true }
    let stS := { stS1 with summaryLoading := false }
    let stP0 := { stS with providerStatsLoading := true, providerStatsError := false }
    let stP1 :=
      match env.providerStats with
      | .ok result => { stP0 with providerStats := result }
      | .error _ => { stP0 with providerStatsError := true }
    let stP := { stP1 with providerStatsLoading := false }
    let stT0 := { stP with timelineLoading := true, timelineError := false }
    let stT1 :=
      match env.timeline with
      | .ok data => { stT0 with timelineData := some data }
      | .error _ => { stT0 with timelineError := true }
    let stT := { stT1 with timelineLoading := false }
    (stT,
      [.flagUp .heatmap, .fetch (.heatmap 500),
       .flagUp .modelStats, .fetch (.modelStats dateRange),
       .flagUp .summary, .fetch (.summary dateRange),
       .flagUp .providerStats, .fetch (.providerStats dateRange),
       .flagUp .timeline, .fetch (.timeline dateRange)])

/-- `loadFilterOptions` of `UsageRecordsPage` (`.filter(Boolean)` drops the
empty string, `.sort()` orders the remaining names). -/
def loadFilterOptions {H M S P T : Type} (env : BackendEnv H M S P T)
    (conn : ConnectionStatus) (st : OrchestratorState H M S P T) :
    OrchestratorState H M S P T × List Ev :=
  if conn ≠ .connected then (st, [])
  else
    let st1 := { st with filterOptionsLoading := true }
    let dateRange := env.deriveRange st1.selectedPeriod
    let st2 :=
      match env.options with
      | .ok result =>
          { st1 with
            availableModels :=
              (result.models.filter (fun m => m ≠ "")).mergeSort (fun a b => a ≤ b)
            availableProviders :=
              (result.providers.filter (fun p => p ≠ "")).mergeSort (fun a b => a ≤ b) }
      | .error _ =>
          { st1 with availableModels := [], availableProviders := [] }
    ({ st2 with filterOptionsLoading := false },
      [.flagUp .filterOptions, .fetch (.options dateRange)])

/-- `loadRecordDetail` of `UsageRecordsPage`.  Unlike the other fetch
routines the source performs NO connection-status check here; the `conn`
argument is the status the auth store reports at call time, and the body
never consults it.  A failed fetch surfaces a transient notification and
leaves the page state untouched. -/
def loadRecordDetail {H M S P T : Type} (env : BackendEnv H M S P T)
    (conn : ConnectionStatus) (id : Int) (st : OrchestratorState H M S P T) :
    OrchestratorState H M S P T × List Ev :=
  let st1 := { st with detailLoading := true }
  let st2 :=
    match env.recordById id with
    | .ok record => { st1 with selectedRecord := some record }
    | .error _ => st1
  let evs :=
    match env.recordById id with
    | .ok _ => [.flagUp .detail, .fetch (.getById id)]
    | .error message =>
        [.flagUp .detail, .fetch (.getById id),
         .notify (if message ≠ "" then message else "加载详情失败")]
  ({ st2 with detailLoading := false }, evs)

/-- `handlePageChange`. -/
def handlePageChange {H M S P T : Type} (newPage : Nat)
    (st : OrchestratorState H M S P T) : OrchestratorState H M S P T :=
  { st with page := newPage }

/-- `handlePageSizeChange`: sets the new page size AND resets the page
to 1. -/
def handlePageSizeChange {H M S P T : Type} (newSize : Nat)
    (st : OrchestratorState H M S P T) : OrchestratorState H M S P T :=
  { st with pageSize := newSize, page := 1 }

/-- The dependency tuple of the `useEffect` that immediately (without
debounce) calls `loadRecords()`: the effect re-runs exactly when this tuple
changes between renders. -/
def pageEffectDeps {H M S P T : Type} (st : OrchestratorState H M S P T)
    (conn : ConnectionStatus) : Nat × Nat × ConnectionStatus :=
  (st.page, st.pageSize, conn)

/-- The dependency tuple of the debounced filter `useEffect`. -/
def filterEffectDeps {H M S P T : Type} (st : OrchestratorState H M S P T) :
    PeriodValue × String × String × StatusValue :=
  (st.selectedPeriod, st.modelFilter, st.providerFilter, st.statusFilter)

/-- The timers fired by the filter-debounce effect.  The effect runs once
per filter-state change (at the given instants, in ascending order); each
run clears the pending `setTimeout` and arms a new one `delay` ms out, so a
timer armed at `t` actually fires (at `t + delay`) only if no further
change arrives strictly before its deadline.  Returns the firing
instants. -/
def debounceFires (delay : Nat) : List Nat → List Nat
  | [] => []
  | t :: rest =>
    match rest with
    | [] => [t + delay]
    | next :: _ =>
        (if next < t + delay then [] else [t + delay]) ++ debounceFires delay rest

/-- One round of the auto-refresh effect (the immediate round at enable
time and each 5-second interval round run the same body):
`loadRecords(false, true)` then `loadAnalytics()`. -/
def autoRefreshTick {H M S P T : Type} (env : BackendEnv H M S P T)
    (conn : ConnectionStatus) (st : OrchestratorState H M S P T) :
    OrchestratorState H M S P T × List Ev :=
  let r := loadRecords env conn false true st
  let a := loadAnalytics env conn r.1
  (a.1, r.2 ++ a.2)

/-- `maskApiKey` of `UsageRecordsPage`, on the key's character sequence
(`none` models an absent key; the empty list models `''` — both are falsy
in the source's `if (!key)` test).  `slice(0, 4)` is `take 4` and
`slice(-4)` is the last four characters. -/
def maskApiKey : Option (List Char) → List Char
  | none => ['-']
  | some key =>
      if key.length = 0 then ['-']
      else if key.length ≤ 8 then List.replicate key.length '*'
      else key.take 4 ++ ['*', '*', '*', '*'] ++ key.drop (key.length - 4)

/-- The source's status post-filter agrees with the spec's classification on
every record (the JavaScript truthiness test on the status code is subsumed
by `400 ≤ code`). -/
theorem recordMatchesStatus_eq_spec (statusFilter : StatusValue) (record : UsageRecord) :
    recordMatchesStatus statusFilter record = specStatusClass statusFilter record := by
  cases statusFilter with
  | streaming => rfl
  | standard => rfl
  | all => rfl
  | failed =>
    simp only [recordMatchesStatus, specStatusClass]
    cases hsc : record.status_code with
    | none => simp
    | some code =>
      simp only [Option.isSome_some, Option.getD_some]
      by_cases h4 : (400 : Int) ≤ code
      · have hne0 : code ≠ 0 := by omega
        simp [h4, hne0]
      · simp [h4]

/-- Pointwise agreement as a function equation, for rewriting under
`List.filter`. -/
theorem recordMatchesStatus_funext (statusFilter : StatusValue) :
    recordMatchesStatus statusFilter = specStatusClass statusFilter := by
  funext record
  exact recordMatchesStatus_eq_spec statusFilter record

/-- Claim C5: after a list fetch with a non-`'__all__'` status filter, the
displayed records are exactly the fetched page's rows satisfying the
classification `streaming = is_streaming && success`,
`standard = !is_streaming && success`,
`failed = !success || (status_code present && status_code >= 400)`, and the
stored total is always the backend response's total (the client-side filter
never changes it). -/
theorem claim_C5 {H M S P T : Type} (env : BackendEnv H M S P T)
    (resetPage isSilent : Bool) (st : OrchestratorState H M S P T)
    (result : ListResult) (hok : env.listResult = .ok result)
    (hf : st.statusFilter ≠ .all) :
    (loadRecords env .connected resetPage isSilent st).1.records =
        result.records.filter (specStatusClass st.statusFilter) ∧
      (loadRecords env .connected resetPage isSilent st).1.total = result.total := by
  cases resetPage <;> cases isSilent <;>
    simp [loadRecords, hok, hf, recordMatchesStatus_funext]

/-- A failed row (`success = false`, status 500). -/
def failedRow : UsageRecord :=
  ⟨1, "t1", "ip1", none, "m1", "p1", false, false, some 500, 10, 20, 100⟩

/-- A streaming success row. -/
def streamingRow : UsageRecord :=
  ⟨2, "t2", "ip2", none, "m2", "p2", true, true, some 200, 10, 20, 100⟩

/-- A standard (non-streaming) success row. -/
def standardRow : UsageRecord :=
  ⟨3, "t3", "ip3", none, "m3", "p3", false, true, some 200, 10, 20, 100⟩

/-- A backend environment whose list endpoint returns the three sample rows
with backend total 57, every other call failing. -/
def envListOk : BackendEnv Unit Unit Unit Unit Unit where
  deriveRange := fun _ => ⟨none, none⟩
  listResult := .ok ⟨[failedRow, streamingRow, standardRow], 57⟩
  heatmap := .error "down"
  modelStats := .error "down"
  summary := .error "down"
  providerStats := .error "down"
  timeline := .error "down"
  options := .error "down"
  recordById := fun _ => .error "down"

/-- Witness for claim C5: with the `failed` status filter, the displayed
rows are exactly the failed sample row while the stored total stays at the
backend's 57. -/
theorem claim_C5_witness :
    (envListOk.listResult = .ok ⟨[failedRow, streamingRow, standardRow], 57⟩ ∧
      ({ initialState with statusFilter := .failed } :
        OrchestratorState Unit Unit Unit Unit Unit).statusFilter ≠ .all) ∧
    ((loadRecords envListOk .connected false false
          ({ initialState with statusFilter := .failed } :
            OrchestratorState Unit Unit Unit Unit Unit)).1.records =
        [failedRow, streamingRow, standardRow].filter (specStatusClass .failed) ∧
      (loadRecords envListOk .connected false false
          ({ initialState with statusFilter := .failed } :
            OrchestratorState Unit Unit Unit Unit Unit)).1.total = 57) ∧
    [failedRow, streamingRow, standardRow].filter (specStatusClass .failed) = [failedRow] :=
  ⟨⟨rfl, by decide⟩,
   claim_C5 envListOk false false _ _ rfl (by decide),
   by decide⟩

/-- A backend environment in which every call fails. -/
def envAllFail : BackendEnv Unit Unit Unit Unit Unit where
  deriveRange := fun _ => ⟨none, none⟩
  listResult := .error "down"
  heatmap := .error "down"
  modelStats := .error "down"
  summary := .error "down"
  providerStats := .error "down"
  timeline := .error "down"
  options := .error "down"
  recordById := fun _ => .error "down"

/-- Claim C6 (amended): when the connection status is not `connected`, the
list, analytics and filter-options loads perform no backend request and
leave their data state unchanged (the list load additionally clears its
loading flag); the single-record detail load, however, is not
connection-guarded and issues its backend request regardless of the
connection status. -/
theorem claim_C6_amended {H M S P T : Type} (env : BackendEnv H M S P T)
    (conn : ConnectionStatus) (st : OrchestratorState H M S P T)
    (resetPage isSilent : Bool) (id : Int) (hconn : conn ≠ .connected) :
    loadRecords env conn resetPage isSilent st = ({ st with loading := false }, []) ∧
      loadAnalytics env conn st = (st, []) ∧
      loadFilterOptions env conn st = (st, []) ∧
      Ev.fetch (.getById id) ∈ (loadRecordDetail env conn id st).2 := by
  refine ⟨?_, ?_, ?_, ?_⟩
  · unfold loadRecords
    rw [if_pos hconn]
  · unfold loadAnalytics
    rw [if_pos hconn]
  · unfold loadFilterOptions
    rw [if_pos hconn]
  · unfold loadRecordDetail
    cases env.recordById id <;> simp

/-- Counterexample to claim C6 as stated: with the connection reported as
`disconnected`, the single-record detail load still issues its backend
request — the source has no connection guard in `loadRecordDetail` — so not
every fetch operation of the page is a no-op when not connected. -/
theorem claim_C6_counterexample :
    Ev.fetch (.getById 1) ∈
      (loadRecordDetail envAllFail .disconnected 1
        (initialState : OrchestratorState Unit Unit Unit Unit Unit)).2 := by
  simp [loadRecordDetail, envAllFail]

/-- Witness for the amended claim C6 at a concrete disconnected state. -/
theorem claim_C6_amended_witness :
    (ConnectionStatus.disconnected ≠ ConnectionStatus.connected) ∧
    (loadRecords envAllFail .disconnected false false
        (initialState : OrchestratorState Unit Unit Unit Unit Unit) =
          ({ initialState with loading := false }, []) ∧
      loadAnalytics envAllFail .disconnected
        (initialState : OrchestratorState Unit Unit Unit Unit Unit) =
          (initialState, []) ∧
      loadFilterOptions envAllFail .disconnected
        (initialState : OrchestratorState Unit Unit Unit Unit Unit) =
          (initialState, []) ∧
      Ev.fetch (.getById 1) ∈
        (loadRecordDetail envAllFail .disconnected 1
          (initialState : OrchestratorState Unit Unit Unit Unit Unit)).2) :=
  ⟨by decide,
   claim_C6_amended envAllFail .disconnected initialState false false 1 (by decide)⟩

/-- Claim C7 (amended): while auto-refresh is enabled, each round (the
immediate one and every 5-second interval one) reloads the list silently —
the full-page list loading flag is never raised and a failed fetch keeps
the displayed rows and total — and reloads analytics as an ordinary
non-silent load: failures there also keep all displayed analytics data
(only the per-section error flags change), but the per-section analytics
loading flags ARE raised. -/
theorem claim_C7_amended {H M S P T : Type} (env : BackendEnv H M S P T)
    (st : OrchestratorState H M S P T)
    (mL mH mM mS mP mT : String)
    (hL : env.listResult = .error mL)
    (hH : env.heatmap = .error mH)
    (hM : env.modelStats = .error mM)
    (hS : env.summary = .error mS)
    (hP : env.providerStats = .error mP)
    (hT : env.timeline = .error mT) :
    Ev.flagUp .list ∉ (autoRefreshTick env .connected st).2 ∧
      (autoRefreshTick env .connected st).1.records = st.records ∧
      (autoRefreshTick env .connected st).1.total = st.total ∧
      (autoRefreshTick env .connected st).1.heatmapData = st.heatmapData ∧
      (autoRefreshTick env .connected st).1.modelStats = st.modelStats ∧
      (autoRefreshTick env .connected st).1.usageSummary = st.usageSummary ∧
      (autoRefreshTick env .connected st).1.providerStats = st.providerStats ∧
      (autoRefreshTick env .connected st).1.timelineData = st.timelineData ∧
      Ev.flagUp .heatmap ∈ (autoRefreshTick env .connected st).2 := by
  simp [autoRefreshTick, loadRecords, loadAnalytics, hL, hH, hM, hS, hP, hT]

/-- Counterexample to claim C7 as stated: an auto-refresh round DOES raise
loading flags — `loadAnalytics` raises the heatmap section's loading flag on
every run — so the analytics reload of an auto-refresh round is not
silent. -/
theorem claim_C7_counterexample :
    Ev.flagUp .heatmap ∈
      (autoRefreshTick envAllFail .connected
        (initialState : OrchestratorState Unit Unit Unit Unit Unit)).2 := by
  simp [autoRefreshTick, loadRecords, loadAnalytics, envAllFail]

/-- Witness for the amended claim C7 at the all-failing environment and the
initial page state. -/
theorem claim_C7_amended_witness :
    (envAllFail.listResult = .error "down" ∧ envAllFail.heatmap = .error "down") ∧
    (Ev.flagUp .list ∉
        (autoRefreshTick envAllFail .connected
          (initialState : OrchestratorState Unit Unit Unit Unit Unit)).2 ∧
      (autoRefreshTick envAllFail .connected
          (initialState : OrchestratorState Unit Unit Unit Unit Unit)).1.records =
        (initialState : OrchestratorState Unit Unit Unit Unit Unit).records ∧
      (autoRefreshTick envAllFail .connected
          (initialState : OrchestratorState Unit Unit Unit Unit Unit)).1.total =
        (initialState : OrchestratorState Unit Unit Unit Unit Unit).total ∧
      (autoRefreshTick envAllFail .connected
          (initialState : OrchestratorState Unit Unit Unit Unit Unit)).1.heatmapData =
        (initialState : OrchestratorState Unit Unit Unit Unit Unit).heatmapData ∧
      (autoRefreshTick envAllFail .connected
          (initialState : OrchestratorState Unit Unit Unit Unit Unit)).1.modelStats =
        (initialState : OrchestratorState Unit Unit Unit Unit Unit).modelStats ∧
      (autoRefreshTick envAllFail .connected
          (initialState : OrchestratorState Unit Unit Unit Unit Unit)).1.usageSummary =
        (initialState : OrchestratorState Unit Unit Unit Unit Unit).usageSummary ∧
      (autoRefreshTick envAllFail .connected
          (initialState : OrchestratorState Unit Unit Unit Unit Unit)).1.providerStats =
        (initialState : OrchestratorState Unit Unit Unit Unit Unit).providerStats ∧
      (autoRefreshTick envAllFail .connected
          (initialState : OrchestratorState Unit Unit Unit Unit Unit)).1.timelineData =
        (initialState : OrchestratorState Unit Unit Unit Unit Unit).timelineData ∧
      Ev.flagUp .heatmap ∈
        (autoRefreshTick envAllFail .connected
          (initialState : OrchestratorState Unit Unit Unit Unit Unit)).2) :=
  ⟨⟨rfl, rfl⟩,
   claim_C7_amended envAllFail initialState "down" "down" "down" "down" "down" "down"
     rfl rfl rfl rfl rfl rfl⟩

/-- Claim C8 (amended): an explicit page change updates only the page, and
an explicit page-size change updates the page size AND resets the page
to 1; neither touches the period/model/provider/status filters, so the
debounced filter effect's dependency tuple is unchanged (no debounced
reload), while the page effect's dependency tuple changes, which makes its
immediate `loadRecords()` reload run. -/
theorem claim_C8_amended {H M S P T : Type} (st : OrchestratorState H M S P T)
    (conn : ConnectionStatus) (newPage newSize : Nat)
    (hp : newPage ≠ st.page) (hs : newSize ≠ st.pageSize) :
    (handlePageChange newPage st).page = newPage ∧
      (handlePageChange newPage st).pageSize = st.pageSize ∧
      filterEffectDeps (handlePageChange newPage st) = filterEffectDeps st ∧
      pageEffectDeps (handlePageChange newPage st) conn ≠ pageEffectDeps st conn ∧
      (handlePageSizeChange newSize st).pageSize = newSize ∧
      (handlePageSizeChange newSize st).page = 1 ∧
      filterEffectDeps (handlePageSizeChange newSize st) = filterEffectDeps st ∧
      pageEffectDeps (handlePageSizeChange newSize st) conn ≠ pageEffectDeps st conn := by
  refine ⟨rfl, rfl, rfl, ?_, rfl, rfl, rfl, ?_⟩
  · intro h
    have hfst := congrArg (fun x : Nat × Nat × ConnectionStatus => x.1) h
    simp only [pageEffectDeps, handlePageChange] at hfst
    exact hp hfst
  · intro h
    have hsnd := congrArg (fun x : Nat × Nat × ConnectionStatus => x.2.1) h
    simp only [pageEffectDeps, handlePageSizeChange] at hsnd
    exact hs hsnd

/-- Counterexample to claim C8 as stated: a page-size change does NOT leave
the current page unchanged — from page 3, `handlePageSizeChange 50` resets
the page to 1. -/
theorem claim_C8_counterexample :
    ¬ ((handlePageSizeChange 50
          ({ initialState with page := 3 } :
            OrchestratorState Unit Unit Unit Unit Unit)).page =
        ({ initialState with page := 3 } :
          OrchestratorState Unit Unit Unit Unit Unit).page) := by
  decide

/-- Witness for the amended claim C8 at page 3, page size 20, changing the
page to 2 and the page size to 50. -/
theorem claim_C8_amended_witness :
    ((2 : Nat) ≠ ({ initialState with page := 3 } :
        OrchestratorState Unit Unit Unit Unit Unit).page ∧
      (50 : Nat) ≠ ({ initialState with page := 3 } :
        OrchestratorState Unit Unit Unit Unit Unit).pageSize) ∧
    ((handlePageChange 2 ({ initialState with page := 3 } :
        OrchestratorState Unit Unit Unit Unit Unit)).page = 2 ∧
      (handlePageChange 2 ({ initialState with page := 3 } :
        OrchestratorState Unit Unit Unit Unit Unit)).pageSize =
        ({ initialState with page := 3 } :
          OrchestratorState Unit Unit Unit Unit Unit).pageSize ∧
      filterEffectDeps (handlePageChange 2 ({ initialState with page := 3 } :
          OrchestratorState Unit Unit Unit Unit Unit)) =
        filterEffectDeps ({ initialState with page := 3 } :
          OrchestratorState Unit Unit Unit Unit Unit) ∧
      pageEffectDeps (handlePageChange 2 ({ initialState with page := 3 } :
          OrchestratorState Unit Unit Unit Unit Unit)) .connected ≠
        pageEffectDeps ({ initialState with page := 3 } :
          OrchestratorState Unit Unit Unit Unit Unit) .connected ∧
      (handlePageSizeChange 50 ({ initialState with page := 3 } :
        OrchestratorState Unit Unit Unit Unit Unit)).pageSize = 50 ∧
      (handlePageSizeChange 50 ({ initialState with page := 3 } :
        OrchestratorState Unit Unit Unit Unit Unit)).page = 1 ∧
      filterEffectDeps (handlePageSizeChange 50 ({ initialState with page := 3 } :
          OrchestratorState Unit Unit Unit Unit Unit)) =
        filterEffectDeps ({ initialState with page := 3 } :
          OrchestratorState Unit Unit Unit Unit Unit) ∧
      pageEffectDeps (handlePageSizeChange 50 ({ initialState with page := 3 } :
          OrchestratorState Unit Unit Unit Unit Unit)) .connected ≠
        pageEffectDeps ({ initialState with page := 3 } :
          OrchestratorState Unit Unit Unit Unit Unit) .connected) :=
  ⟨⟨by decide, by decide⟩,
   claim_C8_amended { initialState with page := 3 } .connected 2 50
     (by decide) (by decide)⟩

/-- Every timer armed before the last of a sub-300ms burst is cleared, so
exactly one firing remains, 300ms after the last change. -/
theorem debounceFires_single (delay : Nat) : ∀ (times : List Nat) (hne : times ≠ []),
    times.Chain' (fun a b => b < a + delay) →
    debounceFires delay times = [times.getLast hne + delay] := by
  intro times
  induction times with
  | nil => intro hne; exact absurd rfl hne
  | cons t rest ih =>
    intro hne hchain
    cases rest with
    | nil => rfl
    | cons next tail =>
      have hrel : next < t + delay := (List.chain'_cons.mp hchain).1
      have hchain' := (List.chain'_cons.mp hchain).2
      show (if next < t + delay then [] else [t + delay]) ++
          debounceFires delay (next :: tail) = _
      rw [if_pos hrel, List.nil_append, ih (by simp) hchain']
      congr 1

/-- Claim C9: a burst of filter changes whose consecutive gaps are all
shorter than the 300ms quiet window produces exactly one debounced firing,
300ms after the last change (reloads coalesce, never stack); the fired
action is `loadRecords(true)`, which resets pagination to page 1. -/
theorem claim_C9 {H M S P T : Type} (times : List Nat) (hne : times ≠ [])
    (hq : times.Chain' (fun a b => a ≤ b ∧ b < a + 300))
    (env : BackendEnv H M S P T) (st : OrchestratorState H M S P T) :
    debounceFires 300 times = [times.getLast hne + 300] ∧
      (loadRecords env .connected true false st).1.page = 1 := by
  constructor
  · exact debounceFires_single 300 times hne (hq.imp (fun a b h => h.2))
  · cases hres : env.listResult <;>
      simp [loadRecords, hres]

/-- Witness for claim C9 on the change burst at 0ms, 100ms and 250ms: a
single firing at 550ms, and the fired reload resets the page to 1. -/
theorem claim_C9_witness :
    (([0, 100, 250] : List Nat) ≠ [] ∧
      ([0, 100, 250] : List Nat).Chain' (fun a b => a ≤ b ∧ b < a + 300)) ∧
    (debounceFires 300 [0, 100, 250] =
        [([0, 100, 250] : List Nat).getLast (by decide) + 300] ∧
      (loadRecords envAllFail .connected true false
        ({ initialState with page := 3 } :
          OrchestratorState Unit Unit Unit Unit Unit)).1.page = 1) :=
  ⟨⟨by decide,
    by
      rw [List.chain'_cons, List.chain'_cons]
      exact ⟨by decide, by decide, List.chain'_singleton _⟩⟩,
   claim_C9 [0, 100, 250] (by decide)
     (by
       rw [List.chain'_cons, List.chain'_cons]
       exact ⟨by decide, by decide, List.chain'_singleton _⟩)
     envAllFail { initialState with page := 3 }⟩

/-- Claim C10: `maskApiKey` reveals only the first four and the last four
characters of a long key — any two keys longer than 8 characters that agree
on those mask identically, and the mask is always
first-4 ++ `"****"` ++ last-4, so no middle character influences the
output; a non-empty key of at most 8 characters masks to a same-length
all-asterisk string, and an absent or empty key masks to `"-"`. -/
theorem claim_C10 (k1 k2 : List Char)
    (h1 : 8 < k1.length) (h2 : 8 < k2.length)
    (hfirst : k1.take 4 = k2.take 4)
    (hlast : k1.drop (k1.length - 4) = k2.drop (k2.length - 4)) :
    maskApiKey (some k1) = maskApiKey (some k2) ∧
      maskApiKey (some k1) =
        k1.take 4 ++ ['*', '*', '*', '*'] ++ k1.drop (k1.length - 4) ∧
      (∀ k : List Char, k ≠ [] → k.length ≤ 8 →
        maskApiKey (some k) = List.replicate k.length '*') ∧
      maskApiKey none = ['-'] ∧
      maskApiKey (some []) = ['-'] := by
  have emask : ∀ k : List Char, 8 < k.length →
      maskApiKey (some k) =
        k.take 4 ++ ['*', '*', '*', '*'] ++ k.drop (k.length - 4) := by
    intro k hk
    simp only [maskApiKey]
    rw [if_neg (by omega), if_neg (by omega)]
  refine ⟨?_, emask k1 h1, ?_, rfl, rfl⟩
  · rw [emask k1 h1, emask k2 h2, hfirst, hlast]
  · intro k hk hlen
    have hne0 : ¬ (k.length = 0) := fun h => hk (List.length_eq_zero.mp h)
    simp only [maskApiKey]
    rw [if_neg hne0, if_pos hlen]

/-- Witness for claim C10 on two concrete keys of different lengths and
different middles that share their first and last four characters. -/
theorem claim_C10_witness :
    (8 < (['a', 'b', 'c', 'd', 'M', 'M', 'M', 'e', 'f', 'g', 'h'] : List Char).length ∧
      8 < (['a', 'b', 'c', 'd', 'Z', 'e', 'f', 'g', 'h'] : List Char).length) ∧
    (maskApiKey (some ['a', 'b', 'c', 'd', 'M', 'M', 'M', 'e', 'f', 'g', 'h']) =
        maskApiKey (some ['a', 'b', 'c', 'd', 'Z', 'e', 'f', 'g', 'h']) ∧
      maskApiKey (some ['a', 'b', 'c', 'd', 'M', 'M', 'M', 'e', 'f', 'g', 'h']) =
        (['a', 'b', 'c', 'd', 'M', 'M', 'M', 'e', 'f', 'g', 'h'] : List Char).take 4 ++
          ['*', '*', '*', '*'] ++
          (['a', 'b', 'c', 'd', 'M', 'M', 'M', 'e', 'f', 'g', 'h'] : List Char).drop
            ((['a', 'b', 'c', 'd', 'M', 'M', 'M', 'e', 'f', 'g', 'h'] : List Char).length - 4) ∧
      (∀ k : List Char, k ≠ [] → k.length ≤ 8 →
        maskApiKey (some k) = List.replicate k.length '*') ∧
      maskApiKey none = ['-'] ∧
      maskApiKey (some []) = ['-']) :=
  ⟨⟨by decide, by decide⟩,
   claim_C10 ['a', 'b', 'c', 'd', 'M', 'M', 'M', 'e', 'f', 'g', 'h']
     ['a', 'b', 'c', 'd', 'Z', 'e', 'f', 'g', 'h']
     (by decide) (by decide) (by decide) (by decide)⟩
